import Mathlib

/-!
Shallow embedding of the utask task-orchestration engine (Go sources:
pkg/notify/init/init.go, pkg/notify/notify.go, pkg/auth, pkg/taskutils/taskutils.go,
api/metrics.go, api server route table). Go maps are embedded as association
lists, Go `error` results as `Option`/`Except` values, and collaborator
functions that live in packages outside the provided sources (database
accessors, backend instantiation) as explicit function parameters. Machine
behaviour that the embedded functions do not depend on (logging, goroutines,
JSON decoding) is not modelled.
-/

/-! Association-list embedding of Go `map[string]string`. `lookupStr` is map
indexing (`m[k]`), `insertStr` is map assignment (`m[k] = v`). -/

/-- Go map indexing `v, ok := m[k]` over the association-list embedding. -/
def lookupStr : List (String × String) → String → Option String
  | [], _ => none
  | p :: rest, k => if p.1 = k then some p.2 else lookupStr rest k

/-- Go map assignment `m[k] = v` over the association-list embedding:
replaces the first binding of `k`, or appends one. -/
def insertStr : List (String × String) → String → String → List (String × String)
  | [], k, v => [(k, v)]
  | p :: rest, k, v => if p.1 = k then (k, v) :: rest else p :: insertStr rest k v

/-! Constants of pkg/notify (notify.go lines 15-19) and the notification
strategy names of package utask (config.go is not among the provided sources;
the strategy strings are those listed in the specification: `always`,
`silent`, `failure_only`, `failure_or_done`). -/

/-- notify.TaskStateUpdateKey (notify.go line 16). -/
def TaskStateUpdateKey : String := "task_state_update"

/-- notify.TaskStepUpdateKey (notify.go line 17). -/
def TaskStepUpdateKey : String := "task_step_update"

/-- notify.TaskValidationKey (notify.go line 18). -/
def TaskValidationKey : String := "task_validation"

/-- Modelled from the spec: utask.NotificationStrategyAlways (package utask
constants are not among the provided sources). -/
def NotificationStrategyAlways : String := "always"

/-- Modelled from the spec: utask.NotificationStrategySilent. -/
def NotificationStrategySilent : String := "silent"

/-- Modelled from the spec: utask.NotificationStrategyFailureOnly. -/
def NotificationStrategyFailureOnly : String := "failure_only"

/-- Modelled from the spec: utask.NotificationStrategyFailureOrDone. -/
def NotificationStrategyFailureOrDone : String := "failure_or_done"

/-- utask.TemplateNotificationStrategy: a strategy applied to a list of
template names. -/
structure TemplateNotificationStrategy where
  templates : List String
  notificationStrategy : String
deriving DecidableEq

/-- utask.NotifyBackend: one notification backend configuration. The raw
transport `Config` JSON is not modelled (it is only decoded by the
backend-specific setup, which the embedding keeps abstract). -/
structure NotifyBackend where
  btype : String
  defaultNotificationStrategy : List (String × String)
  templateNotificationStrategies : List (String × List TemplateNotificationStrategy)
deriving DecidableEq

/-- The two sentinel errors of pkg/notify/init (init.go lines 161-164):
errNotAllowed and errUnknown. -/
inductive StrategyError
  | notAllowed
  | unknown
deriving DecidableEq

/-- validateStrategyForAction (init.go lines 166-182): `always` and `silent`
are accepted for every action; `failure_only` and `failure_or_done` are
rejected (errNotAllowed) for the `task_validation` action; anything else is
errUnknown. -/
def validateStrategyForAction (action strategy : String) : Option StrategyError :=
  if strategy = NotificationStrategyAlways ∨ strategy = NotificationStrategySilent then
    none
  else if strategy = NotificationStrategyFailureOnly then
    if action = TaskValidationKey then some .notAllowed else none
  else if strategy = NotificationStrategyFailureOrDone then
    if action = TaskValidationKey then some .notAllowed else none
  else
    some .unknown

/-- validateActionName (init.go lines 184-191). -/
def validateActionName (action : String) : Bool :=
  action = TaskValidationKey ∨ action = TaskStateUpdateKey ∨ action = TaskStepUpdateKey

/-- The distinct error values validateAndNormalizeNotificationStrategy can
return (init.go lines 121, 138, 140, 145, 150, 152); each constructor keeps
the data interpolated into the corresponding Go error message. -/
inductive ValidationError
  | invalidDefaultActionName (action : String)
  | defaultStrategyNotAllowed (action strategy : String)
  | defaultStrategyUnknown (action strategy : String)
  | invalidTemplateActionName (action : String)
  | templateStrategyNotAllowed (templates : List String) (action strategy : String)
  | templateStrategyUnknown (templates : List String) (strategy : String)
deriving DecidableEq

/-- The action-name scan over default_notification_strategy
(init.go lines 119-123). -/
def checkDefaultNames : List (String × String) → Option ValidationError
  | [] => none
  | p :: rest =>
    if validateActionName p.1 then checkDefaultNames rest
    else some (.invalidDefaultActionName p.1)

/-- The inner strategy scan of the template_notification_strategies loop
(init.go lines 147-154). -/
def checkTemplateStrategyList (action : String) :
    List TemplateNotificationStrategy → Option ValidationError
  | [] => none
  | strat :: rest =>
    match validateStrategyForAction action strat.notificationStrategy with
    | some .notAllowed =>
        some (.templateStrategyNotAllowed strat.templates action strat.notificationStrategy)
    | some .unknown =>
        some (.templateStrategyUnknown strat.templates strat.notificationStrategy)
    | none => checkTemplateStrategyList action rest

/-- The template_notification_strategies loop (init.go lines 143-155):
each entry's action name is validated, then each of its strategies. -/
def checkTemplateStrategies :
    List (String × List TemplateNotificationStrategy) → Option ValidationError
  | [] => none
  | q :: rest =>
    if validateActionName q.1 then
      match checkTemplateStrategyList q.1 q.2 with
      | some e => some e
      | none => checkTemplateStrategies rest
    else some (.invalidTemplateActionName q.1)

/-- One iteration of the per-action loop of
validateAndNormalizeNotificationStrategy (init.go lines 125-156): read the
default strategy for `action`, filling in `always` when absent (a nil map is
the empty association list), validate it, then re-scan the template
strategies. -/
def normalizeAction (tns : List (String × List TemplateNotificationStrategy))
    (m : List (String × String)) (action : String) :
    Except ValidationError (List (String × String)) :=
  let filled : List (String × String) × String :=
    match lookupStr m action with
    | some s => (m, s)
    | none => (insertStr m action NotificationStrategyAlways, NotificationStrategyAlways)
  match validateStrategyForAction action filled.2 with
  | some .notAllowed => .error (.defaultStrategyNotAllowed action filled.2)
  | some .unknown => .error (.defaultStrategyUnknown action filled.2)
  | none =>
    match checkTemplateStrategies tns with
    | some e => .error e
    | none => .ok filled.1

/-- The `for _, action := range [...]` loop of
validateAndNormalizeNotificationStrategy, threading the (possibly filled-in)
default strategy map. -/
def normalizeActions (tns : List (String × List TemplateNotificationStrategy)) :
    List (String × String) → List String → Except ValidationError (List (String × String))
  | m, [] => .ok m
  | m, action :: rest =>
    match normalizeAction tns m action with
    | .error e => .error e
    | .ok m' => normalizeActions tns m' rest

/-- validateAndNormalizeNotificationStrategy (init.go lines 118-159). -/
def validateAndNormalizeNotificationStrategy (ncfg : NotifyBackend) :
    Except ValidationError NotifyBackend :=
  match checkDefaultNames ncfg.defaultNotificationStrategy with
  | some e => .error e
  | none =>
    match normalizeActions ncfg.templateNotificationStrategies
        ncfg.defaultNotificationStrategy
        [TaskValidationKey, TaskStateUpdateKey, TaskStepUpdateKey] with
    | .error e => .error e
    | .ok m => .ok { ncfg with defaultNotificationStrategy := m }

/-- The error of notify-init Init: either a strategy-validation failure for a
named backend, or a failure of the backend-specific setup (config decoding,
sender instantiation, unknown backend type — init.go lines 37-110). -/
inductive InitError
  | validation (name : String) (e : ValidationError)
  | backend (name : String) (msg : String)
deriving DecidableEq

/-- Init of pkg/notify/init (init.go lines 22-116), over the list of
configured backends. The backend-type switch (JSON decoding, credential
lookup, sender construction and registration) is abstracted as `setup`;
the loop validates each configuration first and returns its error before any
backend setup for that entry, exactly as in the source. -/
def Init (setup : String → NotifyBackend → Except String Unit) :
    List (String × NotifyBackend) → Except InitError Unit
  | [] => .ok ()
  | (name, ncfg) :: rest =>
    match validateAndNormalizeNotificationStrategy ncfg with
    | .error e => .error (.validation name e)
    | .ok newncfg =>
      match setup name { ncfg with
          defaultNotificationStrategy := newncfg.defaultNotificationStrategy } with
      | .error msg => .error (.backend name msg)
      | .ok () => Init setup rest

/-- The four valid strategy names (spec §4.G / §6). -/
def validStrategies : List String :=
  [NotificationStrategyAlways, NotificationStrategySilent,
   NotificationStrategyFailureOnly, NotificationStrategyFailureOrDone]

/-! notify.Send (notify.go lines 62-88). The registered senders map is an
association list; `checkIfDeliverMessage`, whose body is not among the
provided sources, is abstracted as a boolean predicate on the backend.
`Send` returns the list of (name, backend) pairs whose sender is invoked. -/

/-- utask.NotifyActionsParameters, restricted to the two fields Send reads. -/
structure NotifyActionsParameters where
  disabled : Bool
  notifyBackends : List String
deriving DecidableEq

/-- notify.Send (notify.go lines 62-88): nothing when disabled; all
registered senders when no backend name is given; otherwise the registered
senders matching a listed name. The result is the list of invoked senders. -/
def Send {β : Type} (checkIfDeliverMessage : β → Bool)
    (senders : List (String × β)) (params : NotifyActionsParameters) :
    List (String × β) :=
  if params.disabled then []
  else if params.notifyBackends.isEmpty then
    senders.filter (fun p => checkIfDeliverMessage p.2)
  else
    params.notifyBackends.flatMap
      (fun n => senders.filter (fun p => p.1 = n && checkIfDeliverMessage p.2))

/-! pkg/auth: identity, groups and the authorization predicates. The
adminUsers/adminGroups package globals become an `AuthConfig` record, the
gin/request context becomes an `AuthCtx` record. -/

/-- The caller data stored in the request context (GetIdentity, GetGroups). -/
structure AuthCtx where
  identity : String
  groups : List String

/-- The admin configuration loaded by auth Init (adminUsers, adminGroups). -/
structure AuthConfig where
  adminUsers : List String
  adminGroups : List String

/-- Modelled from the spec: utils.ListContainsString of pkg/utils (not among
the provided sources) — membership of a string in a list. -/
def ListContainsString (l : List String) (s : String) : Bool :=
  l.contains s

/-- Modelled from the spec: utils.HasIntersection of pkg/utils (not among
the provided sources) — whether two string lists share an element. -/
def HasIntersection (a b : List String) : Bool :=
  a.any (fun x => b.contains x)

/-- The errors of pkg/auth: errors.Forbiddenf denials, and the plain
errors.New results for nil arguments. -/
inductive AuthError
  | forbidden
  | nilArgument
deriving DecidableEq

/-- auth.IsAdmin: admin by username or by group intersection, else a
Forbidden error. `none` models a nil Go error. -/
def IsAdmin (cfg : AuthConfig) (ctx : AuthCtx) : Option AuthError :=
  if ListContainsString cfg.adminUsers ctx.identity then none
  else if HasIntersection cfg.adminGroups ctx.groups then none
  else some .forbidden

/-- tasktemplate.TaskTemplate, restricted to the fields the embedded
functions read. `autoRunnable` backs IsAutoRunnable (models/tasktemplate is
not among the provided sources; the spec lists `auto_runnable` (bool)). -/
structure TaskTemplate where
  name : String
  blocked : Bool
  autoRunnable : Bool
  allowAllResolverUsernames : Bool
  allowedResolverUsernames : List String
  allowedResolverGroups : List String
deriving DecidableEq

/-- Modelled from the spec: tasktemplate IsAutoRunnable reads the
`auto_runnable` template field. -/
def TaskTemplate.IsAutoRunnable (tt : TaskTemplate) : Bool :=
  tt.autoRunnable

/-- resolution.Resolution, restricted to the fields the embedded functions
read. -/
structure Resolution where
  publicID : String
  resolverUsername : String
  state : String
deriving DecidableEq

/-- task.Task, restricted to the fields the embedded functions read (named
`UTask` because `Task` is taken by the Lean core library). Pointer-valued
fields (BatchID, Resolution, Tags map) become options. -/
structure UTask where
  publicID : String
  requesterUsername : String
  resolverUsernames : List String
  resolverGroups : List String
  state : String
  tags : Option (List (String × String))
  batchID : Option Nat
  resolution : Option String
  comments : List String
deriving DecidableEq

/-- auth.IsRequester: the caller must be the task's requester. -/
def IsRequester (ctx : AuthCtx) (t : UTask) : Option AuthError :=
  if t.requesterUsername ≠ ctx.identity then some .forbidden else none

/-- auth.IsTemplateOwner: caller among the template's
allowed_resolver_usernames, or caller groups intersecting its
allowed_resolver_groups; a nil template is a plain (non-Forbidden) error. -/
def IsTemplateOwner (ctx : AuthCtx) (tt : Option TaskTemplate) : Option AuthError :=
  match tt with
  | none => some .nilArgument
  | some tt =>
    if ListContainsString tt.allowedResolverUsernames ctx.identity then none
    else if HasIntersection tt.allowedResolverGroups ctx.groups then none
    else some .forbidden

/-- auth.IsResolutionManager: template owner, or task resolver (by username
or group), or the resolution's resolver; a nil task is a plain
(non-Forbidden) error. -/
def IsResolutionManager (ctx : AuthCtx) (tt : Option TaskTemplate)
    (t : Option UTask) (r : Option Resolution) : Option AuthError :=
  match t with
  | none => some .nilArgument
  | some t =>
    if (IsTemplateOwner ctx tt).isNone then none
    else if ListContainsString t.resolverUsernames ctx.identity then none
    else if (match r with
             | some r => r.resolverUsername == ctx.identity
             | none => false) then none
    else if HasIntersection t.resolverGroups ctx.groups then none
    else some .forbidden

/-! Task and resolution state names. Their Go constants live in models/task
and models/resolution, which are not among the provided sources; the state
sets are taken from the specification (§3), which uses the upper-case names
directly. The embedded functions only compare states for equality, so only
distinctness of the strings matters. -/

/-- Modelled from the spec: task.StateDone. -/
def StateDone : String := "DONE"

/-- Modelled from the spec: task.StateWontfix. -/
def StateWontfix : String := "WONTFIX"

/-- Modelled from the spec: task.StateCancelled. -/
def StateCancelled : String := "CANCELLED"

/-- Modelled from the spec: task.StateBlocked. -/
def StateBlocked : String := "BLOCKED"

/-- Modelled from the spec: task.StateRunning. -/
def StateRunning : String := "RUNNING"

/-- Modelled from the spec: task.StateWaiting. -/
def StateWaiting : String := "WAITING"

/-- Modelled from the spec: resolution.StateCrashed. -/
def ResolutionStateCrashed : String := "CRASHED"

/-- Modelled from the spec: resolution.StatePaused. -/
def ResolutionStatePaused : String := "PAUSED"

/-- constants.SubtaskTagParentTaskID (pkg/constants is not among the provided
sources); the embedded functions only use it as an opaque tag key. -/
def SubtaskTagParentTaskID : String := "_utask_parent_task_id"

/-! pkg/taskutils. The database provider and the model-layer collaborators
(task.Create, task.CreateComment, resolution.Create, batchutils.RunningTasks,
task.LoadFromPublicID, resolution.LoadFromPublicID — none of them among the
provided sources) are abstracted as explicit functions over an opaque
database state, threaded through the control flow exactly as in the Go
source. -/

/-- The rows an embedded database state records; an abstract counter model is
enough for the embedded functions, which never read it back. -/
structure DBState where
  taskRows : Nat
  resolutionRows : Nat
  commentRows : Nat
deriving DecidableEq

/-- The errors of taskutils.CreateTask: errors.NewNotValid results (rendered
as BadRequest by the API layer) and every other (internal) error. -/
inductive CreateTaskError
  | notValid (msg : String)
  | internal (msg : String)
deriving DecidableEq

/-- The Go error message of the blocked-template rejection
(taskutils.go line 24). -/
def msgBlockedTemplate : String := "Template not available (blocked)"

/-- The Go error message of the delay-parsing rejection
(taskutils.go line 61). -/
def msgInvalidDelay : String := "delay"

/-- The Go error message of the auto-runnable consistency check
(taskutils.go line 41). -/
def msgShouldBeAutoRunnable : String := "invalid tasktemplate: should be auto_runnable"

/-- The collaborators CreateTask calls into (their packages are not among the
provided sources). Each database call returns its Go (result, error) pair
together with the database state it leaves behind; `parseDuration` models
time.ParseDuration as an optional duration. Arguments the embedding does not
inspect (watchers, input, tags, batch) are closed over by the collaborator
functions. -/
structure Collaborators where
  taskCreate : DBState → Except String UTask × DBState
  createComment : DBState → Except String String × DBState
  resolutionCreate : DBState → Except String (Option Resolution) × DBState
  parseDuration : String → Option Nat

/-- taskutils.CreateTask (taskutils.go lines 19-76): reject blocked
templates, create the task row, attach a comment, enforce the auto-runnable
consistency rule, and create a resolution when the caller is admin, an
allowed requester, or a resolution manager. NotifyValidationRequired is a
pure notification side effect and is not modelled. -/
def CreateTask (cfg : AuthConfig) (ctx : AuthCtx) (col : Collaborators)
    (tt : TaskTemplate) (comment : String) (delay : Option String)
    (db : DBState) : Except CreateTaskError UTask × DBState :=
  if tt.blocked then (.error (.notValid msgBlockedTemplate), db)
  else
    match col.taskCreate db with
    | (.error e, db1) => (.error (.internal e), db1)
    | (.ok t0, db1) =>
      let afterComment : Except CreateTaskError UTask × DBState :=
        if comment ≠ "" then
          match col.createComment db1 with
          | (.error e, db2) => (.error (.internal e), db2)
          | (.ok com, db2) => (.ok { t0 with comments := [com] }, db2)
        else (.ok t0, db1)
      match afterComment with
      | (.error e, db2) => (.error e, db2)
      | (.ok t, db2) =>
        if !tt.IsAutoRunnable && tt.allowAllResolverUsernames then
          (.error (.internal msgShouldBeAutoRunnable), db2)
        else if !tt.IsAutoRunnable then
          (.ok t, db2)
        else
          let admin := (IsAdmin cfg ctx).isNone
          let requester := (IsRequester ctx t).isNone && tt.allowAllResolverUsernames
          let resolutionManager :=
            (IsResolutionManager ctx (some tt) (some t) none).isNone
          if !requester && !resolutionManager && !admin then (.ok t, db2)
          else
            let delayParsed : Except CreateTaskError (Option Nat) :=
              match delay with
              | none => .ok none
              | some d =>
                match col.parseDuration d with
                | none => .error (.notValid msgInvalidDelay)
                | some n => .ok (some n)
            match delayParsed with
            | .error e => (.error e, db2)
            | .ok _ =>
              match col.resolutionCreate db2 with
              | (.error e, db3) => (.error (.internal e), db3)
              | (.ok none, db3) => (.ok t, db3)
              | (.ok (some r), db3) => (.ok { t with resolution := some r.publicID }, db3)

/-- The database accessors ShouldResumeParentTask calls into
(batchutils.RunningTasks counts the sibling tasks of a batch still running;
the two loaders fetch a task or resolution by public id — their packages are
not among the provided sources). -/
structure BatchDB where
  runningTasks : Nat → Except String Nat
  loadTaskFromPublicID : String → Except String UTask
  loadResolutionFromPublicID : String → Except String Resolution

/-- The tail of ShouldResumeParentTask (taskutils.go lines 110-135): load the
parent, require a resumable parent state, a non-nil resolution, and a
resolution state that is neither crashed nor paused. -/
def loadParentForResume (dbp : BatchDB) (parentTaskID : String) :
    Except String (Option UTask) :=
  match dbp.loadTaskFromPublicID parentTaskID with
  | .error e => .error e
  | .ok parentTask =>
    if parentTask.state = StateBlocked ∨ parentTask.state = StateRunning
        ∨ parentTask.state = StateWaiting then
      match parentTask.resolution with
      | none => .ok none
      | some resID =>
        match dbp.loadResolutionFromPublicID resID with
        | .error e => .error e
        | .ok r =>
          if r.state = ResolutionStateCrashed ∨ r.state = ResolutionStatePaused then
            .ok none
          else .ok (some parentTask)
    else .ok none

/-- taskutils.ShouldResumeParentTask (taskutils.go lines 78-136): a finished
subtask with a parent-task tag resumes its parent, except that a batch member
first requires that no sibling task of its batch is still running. -/
def ShouldResumeParentTask (dbp : BatchDB) (t : UTask) :
    Except String (Option UTask) :=
  if t.state = StateDone ∨ t.state = StateWontfix ∨ t.state = StateCancelled then
    match t.tags with
    | none => .ok none
    | some tags =>
      match lookupStr tags SubtaskTagParentTaskID with
      | none => .ok none
      | some parentTaskID =>
        match t.batchID with
        | none => loadParentForResume dbp parentTaskID
        | some bid =>
          match dbp.runningTasks bid with
          | .error e => .error e
          | .ok running =>
            if running ≠ 0 then .ok none
            else loadParentForResume dbp parentTaskID
  else .ok none

/-! api/metrics.go: the Prometheus gauge and its refresh loop. -/

/-- The name of the gauge registered by api/metrics.go line 20. -/
def metricsGaugeName : String := "utask_task_state"

/-- The label dimensions of the gauge registered by api/metrics.go line 20. -/
def metricsLabelNames : List String := ["status", "template", "group"]

/-- The refresh period, in seconds, of the collectMetrics ticker
(api/metrics.go line 45). -/
def collectMetricsTickSeconds : Nat := 5

/-- updateMetrics (api/metrics.go lines 23-36): from the aggregation result
of task.LoadStateCountResolverGroup — counts indexed by resolver group, then
template, then state — emit one gauge update per entry, with label values
(state, template, group). float64 counts are embedded as naturals; the
embedded code only passes them through. -/
def updateMetrics (stats : List (String × List (String × List (String × Nat)))) :
    List (List String × Nat) :=
  stats.flatMap (fun g =>
    g.2.flatMap (fun t =>
      t.2.map (fun s => ([s.1, t.1, g.1], s.2))))

/-! The DELETE /task/:id route of the API server (api server build, DELETE
registration: requireAdmin, then maintenanceMode, then the DeleteTask
handler) and the middleware semantics of requireAdmin and maintenanceMode. -/

/-- The handlers chained on the DELETE /task/:id route. -/
inductive HandlerStep
  | requireAdmin
  | maintenanceMode
  | deleteTask
deriving DecidableEq

/-- The DELETE /task/:id handler chain, in registration order. -/
def deleteTaskRouteChain : List HandlerStep :=
  [.requireAdmin, .maintenanceMode, .deleteTask]

/-- What one handler does: requireAdmin aborts with HTTP 401 when
auth.IsAdmin fails; maintenanceMode aborts with HTTP 405 in maintenance
mode; the DeleteTask handler itself never aborts the chain. `none` means the
chain continues. -/
def runStep (cfg : AuthConfig) (ctx : AuthCtx) (maintenance : Bool) :
    HandlerStep → Option Nat
  | .requireAdmin => if (IsAdmin cfg ctx).isSome then some 401 else none
  | .maintenanceMode => if maintenance then some 405 else none
  | .deleteTask => none

/-- The outcome of running a gin handler chain: the handlers that executed,
and the abort status if one of them aborted (gin's Abort skips every
remaining handler). -/
structure ChainResult where
  executed : List HandlerStep
  abortStatus : Option Nat
deriving DecidableEq

/-- Run a handler chain under gin semantics: each handler executes in order
until one aborts. -/
def runChain (cfg : AuthConfig) (ctx : AuthCtx) (maintenance : Bool) :
    List HandlerStep → ChainResult
  | [] => { executed := [], abortStatus := none }
  | s :: rest =>
    match runStep cfg ctx maintenance s with
    | some status => { executed := [s], abortStatus := some status }
    | none =>
      let r := runChain cfg ctx maintenance rest
      { executed := s :: r.executed, abortStatus := r.abortStatus }

/-! api Stats (api/metrics.go lines 62-98). -/

/-- Go strings.Split restricted to a single-character separator, over the
character list of the string (strings.Split("", sep) is [""]). -/
def splitOnChar (sep : Char) : List Char → List (List Char)
  | [] => [[]]
  | c :: rest =>
    if c = sep then [] :: splitOnChar sep rest
    else
      match splitOnChar sep rest with
      | h :: t => (c :: h) :: t
      | [] => [[c]]

/-- Go strings.Split(s, sep) for a one-character separator, as used by Stats
with separator "=". -/
def goSplit (s : String) (sep : Char) : List String :=
  (splitOnChar sep s.toList).map (fun cs => String.mk cs)

/-- The errors Stats returns: errors.BadRequestf for a malformed tag
parameter (carrying the offending tag), or an internal error from the
database layer. -/
inductive StatsError
  | badRequest (tag : String)
  | internal (msg : String)
deriving DecidableEq

/-- The tag-parsing loop of Stats (api/metrics.go lines 80-90): each tag
must split on the equals sign into exactly two non-empty parts; accepted
pairs are assigned into the tag map in order. -/
def parseStatsTags (acc : List (String × String)) :
    List String → Except StatsError (List (String × String))
  | [] => .ok acc
  | t :: rest =>
    match goSplit t '=' with
    | [k, v] =>
      if k = "" ∨ v = "" then .error (.badRequest t)
      else parseStatsTags (insertStr acc k v) rest
    | _ => .error (.badRequest t)

/-- api.Stats (api/metrics.go lines 74-98): parse the tag parameters, then
return the task-state counts of task.LoadStateCount (not among the provided
sources; abstracted as `loadStateCount`) for the parsed tag map. float64
counts are embedded as naturals; Stats only passes them through. -/
def Stats (loadStateCount : List (String × String) → Except String (List (String × Nat)))
    (inTags : List String) : Except StatsError (List (String × Nat)) :=
  match parseStatsTags [] inTags with
  | .error e => .error e
  | .ok tags =>
    match loadStateCount tags with
    | .error e => .error (.internal e)
    | .ok m => .ok m

/-- The acceptance condition of the Stats tag loop for one tag parameter:
it splits on the equals sign into exactly two non-empty parts. -/
def statsTagWellFormed (t : String) : Bool :=
  match goSplit t '=' with
  | [k, v] => if k = "" ∨ v = "" then false else true
  | _ => false

/-- The first tag parameter the Stats tag loop rejects, if any. -/
def findBadTag : List String → Option String
  | [] => none
  | t :: rest => if statsTagWellFormed t then findBadTag rest else some t

/-- The tag map the Stats tag loop builds once every parameter is accepted
(ill-formed parameters, which cannot occur in that case, are skipped). -/
def statsTagsMap (acc : List (String × String)) : List String → List (String × String)
  | [] => acc
  | t :: rest =>
    match goSplit t '=' with
    | [k, v] => statsTagsMap (insertStr acc k v) rest
    | _ => statsTagsMap acc rest

/-! Concrete fixtures used to evaluate the embedded functions on closed
inputs. -/

/-- A backend setup that always succeeds. -/
def setupOkW : String → NotifyBackend → Except String Unit := fun _ _ => .ok ()

/-- The name under which the witness backends are registered. -/
def backendNameW : String := "slack-main"

/-- A backend configuration requesting `failure_only` for `task_validation`. -/
def backendBadValidationW : NotifyBackend :=
  { btype := "slack"
    defaultNotificationStrategy := [(TaskValidationKey, NotificationStrategyFailureOnly)]
    templateNotificationStrategies := [] }

/-- A configuration store containing only `backendBadValidationW`. -/
def configsBadW : List (String × NotifyBackend) := [(backendNameW, backendBadValidationW)]

/-- A per-template strategy entry using `failure_only`. -/
def templateStratW : TemplateNotificationStrategy :=
  { templates := ["tmpl-a"], notificationStrategy := NotificationStrategyFailureOnly }

/-- A valid backend configuration: `silent` for `task_validation`, a
`failure_only` template override for `task_state_update`. -/
def backendValidW : NotifyBackend :=
  { btype := "slack"
    defaultNotificationStrategy := [(TaskValidationKey, NotificationStrategySilent)]
    templateNotificationStrategies := [(TaskStateUpdateKey, [templateStratW])] }

/-- A configuration store containing only `backendValidW`. -/
def configsValidW : List (String × NotifyBackend) := [(backendNameW, backendValidW)]

/-- A backend configuration with no strategy configured at all. -/
def backendEmptyW : NotifyBackend :=
  { btype := "webhook"
    defaultNotificationStrategy := []
    templateNotificationStrategies := [] }

/-- The normal form validateAndNormalizeNotificationStrategy produces for
`backendEmptyW`: every action filled in with `always`. -/
def backendEmptyNormalizedW : NotifyBackend :=
  { btype := "webhook"
    defaultNotificationStrategy :=
      [(TaskValidationKey, NotificationStrategyAlways),
       (TaskStateUpdateKey, NotificationStrategyAlways),
       (TaskStepUpdateKey, NotificationStrategyAlways)]
    templateNotificationStrategies := [] }

/-- The public id of the witness parent task. -/
def parentIDW : String := "parent-1"

/-- The public id of the witness resolution. -/
def resolutionIDW : String := "res-1"

/-- An empty comment. -/
def noCommentW : String := ""

/-- A malformed tag parameter (no equals sign). -/
def badTagW : String := "oops"

/-- A template name used in the metrics fixture. -/
def tmplNameW : String := "tmpl-a"

/-- A resolver-group name used in the metrics fixture. -/
def groupNameW : String := "grp-a"

/-- An admin configuration. -/
def authConfigW : AuthConfig := { adminUsers := ["root"], adminGroups := ["admins"] }

/-- A non-admin caller. -/
def authCtxW : AuthCtx := { identity := "alice", groups := ["users"] }

/-- A task row as returned by the task-creation collaborator. -/
def utaskW : UTask :=
  { publicID := "task-1", requesterUsername := "alice", resolverUsernames := []
    resolverGroups := [], state := StateDone, tags := none, batchID := none
    resolution := none, comments := [] }

/-- An initial database state. -/
def dbStateW : DBState := { taskRows := 0, resolutionRows := 0, commentRows := 0 }

/-- The text of the comment the comment collaborator creates. -/
def commentTextW : String := "first comment"

/-- Collaborators whose database calls all succeed. -/
def collaboratorsW : Collaborators :=
  { taskCreate := fun db => (.ok utaskW, { db with taskRows := db.taskRows + 1 })
    createComment := fun db => (.ok commentTextW, { db with commentRows := db.commentRows + 1 })
    resolutionCreate := fun db => (.ok none, { db with resolutionRows := db.resolutionRows + 1 })
    parseDuration := fun _ => some 60 }

/-- A blocked task template. -/
def blockedTemplateW : TaskTemplate :=
  { name := "tmpl-blocked", blocked := true, autoRunnable := true
    allowAllResolverUsernames := false, allowedResolverUsernames := []
    allowedResolverGroups := [] }

/-- A parent task in a resumable state. -/
def parentTaskW : UTask :=
  { publicID := parentIDW, requesterUsername := "bob", resolverUsernames := []
    resolverGroups := [], state := StateWaiting, tags := none, batchID := none
    resolution := some resolutionIDW, comments := [] }

/-- The parent task's resolution. -/
def resolutionW : Resolution :=
  { publicID := resolutionIDW, resolverUsername := "bob", state := StateRunning }

/-- The tag map of a subtask pointing at `parentTaskW`. -/
def subtaskTagsW : List (String × String) := [(SubtaskTagParentTaskID, parentIDW)]

/-- A finished subtask belonging to batch 7. -/
def subtaskW : UTask :=
  { publicID := "sub-1", requesterUsername := "bob", resolverUsernames := []
    resolverGroups := [], state := StateDone, tags := some subtaskTagsW
    batchID := some 7, resolution := none, comments := [] }

/-- A batch database in which two sibling tasks are still running. -/
def batchDBBusyW : BatchDB :=
  { runningTasks := fun _ => .ok 2
    loadTaskFromPublicID := fun _ => .ok parentTaskW
    loadResolutionFromPublicID := fun _ => .ok resolutionW }

/-- An aggregation-query result with one group, template and state. -/
def metricsStatsW : List (String × List (String × List (String × Nat))) :=
  [(groupNameW, [(tmplNameW, [(StateDone, 3)])])]

/-- A registry of two named senders (the backend payload is irrelevant and
embedded as a number). -/
def sendersW : List (String × Nat) := [("slack-main", 1), ("hook", 2)]

/-- Notification parameters with notifications disabled. -/
def paramsDisabledW : NotifyActionsParameters := { disabled := true, notifyBackends := [] }

/-- A state-count collaborator returning a fixed aggregate. -/
def loadStateCountW : List (String × String) → Except String (List (String × Nat)) :=
  fun _ => .ok [(StateDone, 2)]

/-- A well-formed tag parameter list. -/
def statsTagsGoodW : List String := ["env=prod"]

/-- A malformed tag parameter list (no equals sign). -/
def statsTagsBadW : List String := [badTagW]

/-! Helper lemmas about the association-list map embedding. -/

theorem lookupStr_insertStr_self (m : List (String × String)) (k v : String) :
    lookupStr (insertStr m k v) k = some v := by
  induction m with
  | nil => simp [insertStr, lookupStr]
  | cons p rest ih =>
    by_cases h : p.1 = k
    · simp [insertStr, lookupStr, h]
    · simp [insertStr, lookupStr, h, ih]

theorem lookupStr_insertStr_ne (m : List (String × String)) (k v k' : String)
    (h : k' ≠ k) : lookupStr (insertStr m k v) k' = lookupStr m k' := by
  have hk : ¬ (k = k') := fun hk => h hk.symm
  induction m with
  | nil => simp [insertStr, lookupStr, hk]
  | cons p rest ih =>
    by_cases hp : p.1 = k
    · simp [insertStr, lookupStr, hp, hk]
    · simp only [insertStr, hp, if_neg, not_false_iff]
      by_cases hp' : p.1 = k'
      · simp [lookupStr, hp']
      · simp [lookupStr, hp', ih]

theorem lookupStr_mem (m : List (String × String)) (k v : String)
    (h : lookupStr m k = some v) : (k, v) ∈ m := by
  induction m with
  | nil => simp [lookupStr] at h
  | cons p rest ih =>
    by_cases hp : p.1 = k
    · simp only [lookupStr, hp, if_pos] at h
      cases h
      have hpe : (k, p.2) = p := by rw [← hp]
      rw [hpe]
      exact List.mem_cons_self _ _
    · simp only [lookupStr, hp, if_neg, not_false_iff] at h
      exact List.mem_cons_of_mem _ (ih h)

/-! Helper lemmas about validateStrategyForAction and the validation scans. -/

theorem validateStrategyForAction_none_of_validation (s : String)
    (h : validateStrategyForAction TaskValidationKey s = none) :
    s = NotificationStrategyAlways ∨ s = NotificationStrategySilent := by
  by_cases h1 : s = NotificationStrategyAlways ∨ s = NotificationStrategySilent
  · exact h1
  · exfalso
    by_cases h2 : s = NotificationStrategyFailureOnly
    · subst h2; revert h; decide
    · by_cases h3 : s = NotificationStrategyFailureOrDone
      · subst h3; revert h; decide
      · simp [validateStrategyForAction, h1, h2, h3] at h

theorem validateStrategyForAction_none_mem (a s : String)
    (h : validateStrategyForAction a s = none) : s ∈ validStrategies := by
  by_cases h1 : s = NotificationStrategyAlways ∨ s = NotificationStrategySilent
  · rcases h1 with h1 | h1 <;> simp [validStrategies, h1]
  · by_cases h2 : s = NotificationStrategyFailureOnly
    · subst h2; decide
    · by_cases h3 : s = NotificationStrategyFailureOrDone
      · subst h3; decide
      · exfalso
        simp [validateStrategyForAction, h1, h2, h3] at h

theorem checkDefaultNames_none_mem (m : List (String × String))
    (h : checkDefaultNames m = none) :
    ∀ p ∈ m, validateActionName p.1 = true := by
  induction m with
  | nil => simp
  | cons p rest ih =>
    unfold checkDefaultNames at h
    split at h
    · rename_i hp
      intro q hq
      rcases List.mem_cons.mp hq with hq | hq
      · rw [hq]; exact hp
      · exact ih h q hq
    · simp at h

theorem checkTemplateStrategyList_none_mem (a : String)
    (l : List TemplateNotificationStrategy)
    (h : checkTemplateStrategyList a l = none) :
    ∀ strat ∈ l, validateStrategyForAction a strat.notificationStrategy = none := by
  induction l with
  | nil => simp
  | cons strat rest ih =>
    unfold checkTemplateStrategyList at h
    intro q hq
    rcases List.mem_cons.mp hq with hq | hq
    · subst hq
      cases hv : validateStrategyForAction a q.notificationStrategy with
      | none => rfl
      | some e => cases e <;> rw [hv] at h <;> simp at h
    · cases hv : validateStrategyForAction a strat.notificationStrategy with
      | none => rw [hv] at h; exact ih h q hq
      | some e => cases e <;> rw [hv] at h <;> simp at h

theorem checkTemplateStrategies_none_mem
    (tns : List (String × List TemplateNotificationStrategy))
    (h : checkTemplateStrategies tns = none) :
    ∀ q ∈ tns, validateActionName q.1 = true ∧
      ∀ strat ∈ q.2, validateStrategyForAction q.1 strat.notificationStrategy = none := by
  induction tns with
  | nil => simp
  | cons e rest ih =>
    unfold checkTemplateStrategies at h
    split at h
    · rename_i hn
      intro q hq
      cases hl : checkTemplateStrategyList e.1 e.2 with
      | some err => rw [hl] at h; simp at h
      | none =>
        rw [hl] at h
        rcases List.mem_cons.mp hq with hq | hq
        · subst hq
          exact ⟨hn, checkTemplateStrategyList_none_mem _ _ hl⟩
        · exact ih h q hq
    · simp at h

/-! Inversion lemmas for the per-action normalisation loop. -/

theorem normalizeAction_ok_inv (tns : List (String × List TemplateNotificationStrategy))
    (m : List (String × String)) (a : String) (m' : List (String × String))
    (h : normalizeAction tns m a = .ok m') :
    validateStrategyForAction a ((lookupStr m a).getD NotificationStrategyAlways) = none ∧
    checkTemplateStrategies tns = none ∧
    m' = (match lookupStr m a with
          | some _ => m
          | none => insertStr m a NotificationStrategyAlways) := by
  cases hl : lookupStr m a with
  | some s =>
    simp only [normalizeAction, hl, Option.getD_some] at h ⊢
    cases hv : validateStrategyForAction a s with
    | some e => cases e <;> rw [hv] at h <;> simp at h
    | none =>
      rw [hv] at h
      cases hc : checkTemplateStrategies tns with
      | some e => rw [hc] at h; simp at h
      | none => rw [hc] at h; simp at h; exact ⟨rfl, rfl, h.symm⟩
  | none =>
    simp only [normalizeAction, hl, Option.getD_none] at h ⊢
    cases hv : validateStrategyForAction a NotificationStrategyAlways with
    | some e => cases e <;> rw [hv] at h <;> simp at h
    | none =>
      rw [hv] at h
      cases hc : checkTemplateStrategies tns with
      | some e => rw [hc] at h; simp at h
      | none => rw [hc] at h; simp at h; exact ⟨rfl, rfl, h.symm⟩

theorem normalizeAction_ok_lookup_self (tns : List (String × List TemplateNotificationStrategy))
    (m : List (String × String)) (a : String) (m' : List (String × String))
    (h : normalizeAction tns m a = .ok m') :
    lookupStr m' a = some ((lookupStr m a).getD NotificationStrategyAlways) := by
  obtain ⟨-, -, hm⟩ := normalizeAction_ok_inv tns m a m' h
  cases hl : lookupStr m a with
  | some s => rw [hl] at hm; subst hm; rw [hl]; rfl
  | none =>
    rw [hl] at hm; subst hm
    rw [lookupStr_insertStr_self]
    rfl

theorem normalizeAction_ok_lookup_ne (tns : List (String × List TemplateNotificationStrategy))
    (m : List (String × String)) (a : String) (m' : List (String × String))
    (k : String) (hk : k ≠ a)
    (h : normalizeAction tns m a = .ok m') :
    lookupStr m' k = lookupStr m k := by
  obtain ⟨-, -, hm⟩ := normalizeAction_ok_inv tns m a m' h
  cases hl : lookupStr m a with
  | some s => rw [hl] at hm; subst hm; rfl
  | none =>
    rw [hl] at hm; subst hm
    exact lookupStr_insertStr_ne m a NotificationStrategyAlways k hk

/-- Inversion of a successful validateAndNormalizeNotificationStrategy run
into its three per-action passes. -/
theorem validate_ok_chain (ncfg : NotifyBackend) (out : NotifyBackend)
    (h : validateAndNormalizeNotificationStrategy ncfg = .ok out) :
    checkDefaultNames ncfg.defaultNotificationStrategy = none ∧
    ∃ m1 m2 m3,
      normalizeAction ncfg.templateNotificationStrategies
        ncfg.defaultNotificationStrategy TaskValidationKey = .ok m1 ∧
      normalizeAction ncfg.templateNotificationStrategies m1 TaskStateUpdateKey = .ok m2 ∧
      normalizeAction ncfg.templateNotificationStrategies m2 TaskStepUpdateKey = .ok m3 ∧
      out.defaultNotificationStrategy = m3 := by
  unfold validateAndNormalizeNotificationStrategy at h
  cases hd : checkDefaultNames ncfg.defaultNotificationStrategy with
  | some e => rw [hd] at h; simp at h
  | none =>
    rw [hd] at h
    refine ⟨rfl, ?_⟩
    simp only [normalizeActions] at h
    cases h1 : normalizeAction ncfg.templateNotificationStrategies
        ncfg.defaultNotificationStrategy TaskValidationKey with
    | error e => rw [h1] at h; simp at h
    | ok m1 =>
      rw [h1] at h
      simp only [normalizeActions] at h
      cases h2 : normalizeAction ncfg.templateNotificationStrategies m1
          TaskStateUpdateKey with
      | error e => rw [h2] at h; simp at h
      | ok m2 =>
        rw [h2] at h
        simp only [normalizeActions] at h
        cases h3 : normalizeAction ncfg.templateNotificationStrategies m2
            TaskStepUpdateKey with
        | error e => rw [h3] at h; simp at h
        | ok m3 =>
          rw [h3] at h
          simp only [normalizeActions] at h
          refine ⟨m1, m2, m3, rfl, h2, h3, ?_⟩
          cases h
          rfl

theorem validateActionName_true_iff (a : String) :
    validateActionName a = true ↔
      (a = TaskValidationKey ∨ a = TaskStateUpdateKey ∨ a = TaskStepUpdateKey) := by
  simp [validateActionName]

/-! Inversion lemmas for Init over the backend configuration list. -/

theorem init_ok_validate_ok (setup : String → NotifyBackend → Except String Unit)
    (configs : List (String × NotifyBackend)) (name : String) (ncfg : NotifyBackend)
    (h : Init setup configs = .ok ()) (hmem : (name, ncfg) ∈ configs) :
    ∃ out, validateAndNormalizeNotificationStrategy ncfg = .ok out := by
  induction configs with
  | nil => simp at hmem
  | cons hd tl ih =>
    obtain ⟨n, c⟩ := hd
    simp only [Init] at h
    cases hv : validateAndNormalizeNotificationStrategy c with
    | error e => rw [hv] at h; simp at h
    | ok x =>
      rw [hv] at h
      dsimp only at h
      cases hs : setup n { c with
          defaultNotificationStrategy := x.defaultNotificationStrategy } with
      | error msg => rw [hs] at h; simp at h
      | ok u =>
        cases u
        rw [hs] at h
        dsimp only at h
        rcases List.mem_cons.mp hmem with heq | hmem'
        · cases heq; exact ⟨x, hv⟩
        · exact ih h hmem'

theorem init_error_of_validate_error
    (setup : String → NotifyBackend → Except String Unit)
    (configs : List (String × NotifyBackend)) (name : String) (ncfg : NotifyBackend)
    (e : ValidationError)
    (hmem : (name, ncfg) ∈ configs)
    (hv : validateAndNormalizeNotificationStrategy ncfg = .error e) :
    ∃ e', Init setup configs = .error e' := by
  induction configs with
  | nil => simp at hmem
  | cons hd tl ih =>
    obtain ⟨n, c⟩ := hd
    cases hvc : validateAndNormalizeNotificationStrategy c with
    | error e2 =>
      exact ⟨.validation n e2, by simp [Init, hvc]⟩
    | ok x =>
      rcases List.mem_cons.mp hmem with heq | hmem'
      · cases heq
        rw [hv] at hvc
        cases hvc
      · cases hs : setup n { c with
            defaultNotificationStrategy := x.defaultNotificationStrategy } with
        | error msg =>
          exact ⟨.backend n msg, by simp [Init, hvc, hs]⟩
        | ok u =>
          cases u
          obtain ⟨e', he'⟩ := ih hmem'
          exact ⟨e', by simp [Init, hvc, hs, he']⟩

/-- Claim C1: for every notification backend configuration processed at
engine init, Init returns an error whenever the strategy configured for the
`task_validation` action — in default_notification_strategy or in any
template_notification_strategies entry — is `failure_only` or
`failure_or_done`, while those two strategies pass validation for the
`task_state_update` and `task_step_update` actions. -/
theorem init_rejects_failure_strategies_for_task_validation
    (setup : String → NotifyBackend → Except String Unit)
    (configs : List (String × NotifyBackend)) (name : String) (ncfg : NotifyBackend)
    (s : String)
    (hmem : (name, ncfg) ∈ configs)
    (hs : s = NotificationStrategyFailureOnly ∨ s = NotificationStrategyFailureOrDone)
    (hbad : lookupStr ncfg.defaultNotificationStrategy TaskValidationKey = some s
      ∨ ∃ q ∈ ncfg.templateNotificationStrategies, q.1 = TaskValidationKey ∧
          ∃ strat ∈ q.2, strat.notificationStrategy = s) :
    (∃ e, Init setup configs = .error e) ∧
    validateStrategyForAction TaskStateUpdateKey NotificationStrategyFailureOnly = none ∧
    validateStrategyForAction TaskStateUpdateKey NotificationStrategyFailureOrDone = none ∧
    validateStrategyForAction TaskStepUpdateKey NotificationStrategyFailureOnly = none ∧
    validateStrategyForAction TaskStepUpdateKey NotificationStrategyFailureOrDone = none := by
  refine ⟨?_, by decide, by decide, by decide, by decide⟩
  cases hv : validateAndNormalizeNotificationStrategy ncfg with
  | error e => exact init_error_of_validate_error setup configs name ncfg e hmem hv
  | ok out =>
    exfalso
    obtain ⟨-, m1, m2, m3, h1, h2, h3, -⟩ := validate_ok_chain ncfg out hv
    obtain ⟨hstrat, htns, -⟩ := normalizeAction_ok_inv _ _ _ _ h1
    rcases hbad with hbad | ⟨q, hq, hq1, strat, hstratmem, hstrateq⟩
    · rw [hbad] at hstrat
      simp only [Option.getD_some] at hstrat
      rcases hs with hseq | hseq <;> rw [hseq] at hstrat <;> revert hstrat <;> decide
    · have hnone := (checkTemplateStrategies_none_mem _ htns q hq).2 strat hstratmem
      rw [hq1, hstrateq] at hnone
      rcases hs with hseq | hseq <;> rw [hseq] at hnone <;> revert hnone <;> decide

theorem init_rejects_failure_strategies_for_task_validation_witness :
    validateStrategyForAction TaskStateUpdateKey NotificationStrategyFailureOnly = none ∧
    validateStrategyForAction TaskStateUpdateKey NotificationStrategyFailureOrDone = none ∧
    validateStrategyForAction TaskStepUpdateKey NotificationStrategyFailureOnly = none ∧
    validateStrategyForAction TaskStepUpdateKey NotificationStrategyFailureOrDone = none :=
  (init_rejects_failure_strategies_for_task_validation setupOkW configsBadW
    backendNameW backendBadValidationW NotificationStrategyFailureOnly
    (by decide) (Or.inl rfl) (Or.inl (by decide))).2

/-- Claim C6: Init succeeds only if every configured action name is one of
`task_validation`, `task_state_update`, `task_step_update` and every
configured strategy value is one of `always`, `silent`, `failure_only`,
`failure_or_done`, in both the default and the per-template strategy maps
(equivalently: any other name or value makes Init return an error). -/
theorem init_ok_only_valid_actions_and_strategies
    (setup : String → NotifyBackend → Except String Unit)
    (configs : List (String × NotifyBackend)) (name : String) (ncfg : NotifyBackend)
    (hok : Init setup configs = .ok ())
    (hmem : (name, ncfg) ∈ configs) :
    (∀ p ∈ ncfg.defaultNotificationStrategy, validateActionName p.1 = true) ∧
    (∀ a v, lookupStr ncfg.defaultNotificationStrategy a = some v →
      v ∈ validStrategies) ∧
    (∀ q ∈ ncfg.templateNotificationStrategies, validateActionName q.1 = true ∧
      ∀ strat ∈ q.2, strat.notificationStrategy ∈ validStrategies) := by
  obtain ⟨out, hv⟩ := init_ok_validate_ok setup configs name ncfg hok hmem
  obtain ⟨hnames, m1, m2, m3, h1, h2, h3, -⟩ := validate_ok_chain ncfg out hv
  obtain ⟨hs1, htns, -⟩ := normalizeAction_ok_inv _ _ _ _ h1
  obtain ⟨hs2, -, -⟩ := normalizeAction_ok_inv _ _ _ _ h2
  obtain ⟨hs3, -, -⟩ := normalizeAction_ok_inv _ _ _ _ h3
  refine ⟨checkDefaultNames_none_mem _ hnames, ?_, ?_⟩
  · intro a v hlook
    have hmemd := lookupStr_mem _ _ _ hlook
    have hname := checkDefaultNames_none_mem _ hnames (a, v) hmemd
    rcases (validateActionName_true_iff a).mp hname with ha | ha | ha
    · subst ha
      rw [hlook] at hs1
      exact validateStrategyForAction_none_mem TaskValidationKey v (by simpa using hs1)
    · subst ha
      rw [normalizeAction_ok_lookup_ne _ _ _ _ _ (by decide) h1, hlook] at hs2
      exact validateStrategyForAction_none_mem TaskStateUpdateKey v (by simpa using hs2)
    · subst ha
      rw [normalizeAction_ok_lookup_ne _ _ _ _ _ (by decide) h2,
          normalizeAction_ok_lookup_ne _ _ _ _ _ (by decide) h1, hlook] at hs3
      exact validateStrategyForAction_none_mem TaskStepUpdateKey v (by simpa using hs3)
  · intro q hq
    obtain ⟨hname, hstrats⟩ := checkTemplateStrategies_none_mem _ htns q hq
    exact ⟨hname, fun strat hst =>
      validateStrategyForAction_none_mem q.1 strat.notificationStrategy (hstrats strat hst)⟩

theorem init_ok_only_valid_actions_and_strategies_witness :
    validateActionName TaskStateUpdateKey = true :=
  ((init_ok_only_valid_actions_and_strategies setupOkW configsValidW backendNameW
      backendValidW rfl (by decide)).2.2
    (TaskStateUpdateKey, [templateStratW]) (by decide)).1

/-- Claim C8: every configuration accepted by
validateAndNormalizeNotificationStrategy comes back with a
default_notification_strategy map binding each of the three actions, where
an action absent from the input map (in particular for a nil input map) is
bound to `always` and a present action keeps its input strategy. -/
theorem validate_fills_default_strategies (ncfg out : NotifyBackend)
    (h : validateAndNormalizeNotificationStrategy ncfg = .ok out) :
    lookupStr out.defaultNotificationStrategy TaskValidationKey =
      some ((lookupStr ncfg.defaultNotificationStrategy TaskValidationKey).getD
        NotificationStrategyAlways) ∧
    lookupStr out.defaultNotificationStrategy TaskStateUpdateKey =
      some ((lookupStr ncfg.defaultNotificationStrategy TaskStateUpdateKey).getD
        NotificationStrategyAlways) ∧
    lookupStr out.defaultNotificationStrategy TaskStepUpdateKey =
      some ((lookupStr ncfg.defaultNotificationStrategy TaskStepUpdateKey).getD
        NotificationStrategyAlways) := by
  obtain ⟨-, m1, m2, m3, h1, h2, h3, hout⟩ := validate_ok_chain ncfg out h
  rw [hout]
  refine ⟨?_, ?_, ?_⟩
  · rw [normalizeAction_ok_lookup_ne _ _ _ _ _ (by decide) h3,
        normalizeAction_ok_lookup_ne _ _ _ _ _ (by decide) h2,
        normalizeAction_ok_lookup_self _ _ _ _ h1]
  · rw [normalizeAction_ok_lookup_ne _ _ _ _ _ (by decide) h3,
        normalizeAction_ok_lookup_self _ _ _ _ h2,
        normalizeAction_ok_lookup_ne _ _ _ _ _ (by decide) h1]
  · rw [normalizeAction_ok_lookup_self _ _ _ _ h3,
        normalizeAction_ok_lookup_ne _ _ _ _ _ (by decide) h2,
        normalizeAction_ok_lookup_ne _ _ _ _ _ (by decide) h1]

theorem validate_fills_default_strategies_witness :
    lookupStr backendEmptyNormalizedW.defaultNotificationStrategy TaskValidationKey =
      some ((lookupStr backendEmptyW.defaultNotificationStrategy TaskValidationKey).getD
        NotificationStrategyAlways) ∧
    lookupStr backendEmptyNormalizedW.defaultNotificationStrategy TaskStateUpdateKey =
      some ((lookupStr backendEmptyW.defaultNotificationStrategy TaskStateUpdateKey).getD
        NotificationStrategyAlways) ∧
    lookupStr backendEmptyNormalizedW.defaultNotificationStrategy TaskStepUpdateKey =
      some ((lookupStr backendEmptyW.defaultNotificationStrategy TaskStepUpdateKey).getD
        NotificationStrategyAlways) :=
  validate_fills_default_strategies backendEmptyW backendEmptyNormalizedW rfl

/-- Claim C9: Send invokes no sender when params.Disabled is true; with an
empty params.NotifyBackends it considers every registered sender, and with a
non-empty list exactly the registered senders whose name is listed (names
matching no registered sender are silently ignored); a considered sender is
invoked when the strategy filter accepts the message. -/
theorem send_considers_registered_senders {β : Type} (deliver : β → Bool)
    (senders : List (String × β)) (params : NotifyActionsParameters) :
    (params.disabled = true → Send deliver senders params = []) ∧
    (params.disabled = false → params.notifyBackends = [] →
      ∀ p, p ∈ Send deliver senders params ↔ p ∈ senders ∧ deliver p.2 = true) ∧
    (params.disabled = false → params.notifyBackends ≠ [] →
      ∀ p, p ∈ Send deliver senders params ↔
        p ∈ senders ∧ p.1 ∈ params.notifyBackends ∧ deliver p.2 = true) := by
  refine ⟨?_, ?_, ?_⟩
  · intro hd
    simp [Send, hd]
  · intro hd hb p
    simp [Send, hd, hb, List.mem_filter]
  · intro hd hb p
    have hne : ¬ params.notifyBackends.isEmpty = true := by
      simpa [List.isEmpty_iff] using hb
    simp only [Send, hd, Bool.false_eq_true, if_false, hne, List.mem_flatMap,
      List.mem_filter, Bool.and_eq_true, decide_eq_true_eq]
    constructor
    · rintro ⟨n, hn, hp, heq, hdel⟩
      exact ⟨hp, heq ▸ hn, hdel⟩
    · rintro ⟨hp, hb1, hdel⟩
      exact ⟨p.1, hb1, hp, rfl, hdel⟩

theorem send_considers_registered_senders_witness :
    Send (fun _ => true) sendersW paramsDisabledW = [] :=
  (send_considers_registered_senders (fun _ => true) sendersW paramsDisabledW).1 rfl

/-- Claim C2: for every task template with blocked = true, CreateTask
returns the invalid-request (BadRequest) error before any state change: the
database state is returned unchanged, so neither a task nor a resolution is
created. -/
theorem createTask_blocked_template_rejected (cfg : AuthConfig) (ctx : AuthCtx)
    (col : Collaborators) (tt : TaskTemplate) (comment : String)
    (delay : Option String) (db : DBState)
    (hblocked : tt.blocked = true) :
    CreateTask cfg ctx col tt comment delay db =
      (.error (.notValid msgBlockedTemplate), db) := by
  simp [CreateTask, hblocked]

theorem createTask_blocked_template_rejected_witness :
    CreateTask authConfigW authCtxW collaboratorsW blockedTemplateW noCommentW
      none dbStateW = (.error (.notValid msgBlockedTemplate), dbStateW) :=
  createTask_blocked_template_rejected authConfigW authCtxW collaboratorsW
    blockedTemplateW noCommentW none dbStateW (by decide)

/-- Claim C7: a caller who is neither an admin username nor a member of an
admin group is denied on DELETE /task/:id — auth.IsAdmin returns its
Forbidden error, requireAdmin aborts the chain (HTTP 401), and the DeleteTask
handler is never invoked. -/
theorem delete_task_requires_admin (cfg : AuthConfig) (ctx : AuthCtx)
    (maintenance : Bool)
    (hu : ListContainsString cfg.adminUsers ctx.identity = false)
    (hg : HasIntersection cfg.adminGroups ctx.groups = false) :
    IsAdmin cfg ctx = some .forbidden ∧
    runChain cfg ctx maintenance deleteTaskRouteChain =
      { executed := [.requireAdmin], abortStatus := some 401 } ∧
    HandlerStep.deleteTask ∉
      (runChain cfg ctx maintenance deleteTaskRouteChain).executed := by
  have hadmin : IsAdmin cfg ctx = some .forbidden := by
    simp [IsAdmin, hu, hg]
  refine ⟨hadmin, ?_, ?_⟩
  · simp [deleteTaskRouteChain, runChain, runStep, hadmin]
  · simp [deleteTaskRouteChain, runChain, runStep, hadmin]

theorem delete_task_requires_admin_witness :
    runChain authConfigW authCtxW false deleteTaskRouteChain =
      { executed := [.requireAdmin], abortStatus := some 401 } :=
  (delete_task_requires_admin authConfigW authCtxW false (by decide) (by decide)).2.1

/-- Claim C3: for a finished task carrying a parent-task tag and belonging
to a batch, ShouldResumeParentTask returns a non-nil parent task only if the
count of running sibling tasks of the batch is zero; when some sibling is
still running it returns (nil, nil). -/
theorem shouldResumeParent_requires_no_running_siblings (dbp : BatchDB)
    (t : UTask) (tags : List (String × String)) (pid : String) (bid : Nat)
    (hfin : t.state = StateDone ∨ t.state = StateWontfix ∨ t.state = StateCancelled)
    (htags : t.tags = some tags)
    (hpar : lookupStr tags SubtaskTagParentTaskID = some pid)
    (hbatch : t.batchID = some bid) :
    (∀ n, dbp.runningTasks bid = .ok n → n ≠ 0 →
      ShouldResumeParentTask dbp t = .ok none) ∧
    (∀ p, ShouldResumeParentTask dbp t = .ok (some p) →
      dbp.runningTasks bid = .ok 0) := by
  constructor
  · intro n hrun hn
    simp [ShouldResumeParentTask, hfin, htags, hpar, hbatch, hrun, hn]
  · intro p hres
    simp only [ShouldResumeParentTask, hfin, htags, hpar, hbatch, if_true,
      iff_true, or_true, true_or] at hres
    cases hrun : dbp.runningTasks bid with
    | error e => rw [hrun] at hres; simp at hres
    | ok n =>
      rw [hrun] at hres
      by_cases hn : n = 0
      · rw [hn]
      · simp [hn] at hres

theorem shouldResumeParent_requires_no_running_siblings_witness :
    ShouldResumeParentTask batchDBBusyW subtaskW = .ok none :=
  (shouldResumeParent_requires_no_running_siblings batchDBBusyW subtaskW
    subtaskTagsW parentIDW 7 (Or.inl rfl) rfl (by decide) rfl).1 2 rfl (by decide)

/-- Whether the caller owns the template: IsTemplateOwner succeeds exactly
on a non-nil template listing the caller in allowed_resolver_usernames or
intersecting allowed_resolver_groups. -/
theorem isTemplateOwner_none_iff (ctx : AuthCtx) (tt : Option TaskTemplate) :
    IsTemplateOwner ctx tt = none ↔
      ∃ tt0, tt = some tt0 ∧
        (ListContainsString tt0.allowedResolverUsernames ctx.identity = true ∨
         HasIntersection tt0.allowedResolverGroups ctx.groups = true) := by
  cases tt with
  | none => simp [IsTemplateOwner]
  | some tt0 =>
    simp only [IsTemplateOwner]
    split_ifs with h1 h2
    · exact ⟨fun _ => ⟨tt0, rfl, Or.inl h1⟩, fun _ => rfl⟩
    · exact ⟨fun _ => ⟨tt0, rfl, Or.inr h2⟩, fun _ => rfl⟩
    · constructor
      · intro h; simp at h
      · rintro ⟨tt0', heq, hc⟩
        obtain rfl := Option.some.inj heq
        rcases hc with hc | hc
        · exact absurd hc h1
        · exact absurd hc h2

/-- Claim C5: for a non-nil task, IsResolutionManager grants access exactly
when the caller is an allowed resolver of the template (by username or group
intersection), is listed in the task's resolver usernames, equals the
resolution's resolver_username, or has a group intersecting the task's
resolver groups; every denial is the Forbidden error. -/
theorem isResolutionManager_grants_exactly (ctx : AuthCtx)
    (tt : Option TaskTemplate) (t : UTask) (r : Option Resolution) :
    (IsResolutionManager ctx tt (some t) r = none ↔
      ((∃ tt0, tt = some tt0 ∧
          (ListContainsString tt0.allowedResolverUsernames ctx.identity = true ∨
           HasIntersection tt0.allowedResolverGroups ctx.groups = true)) ∨
       ListContainsString t.resolverUsernames ctx.identity = true ∨
       (∃ r0, r = some r0 ∧ r0.resolverUsername = ctx.identity) ∨
       HasIntersection t.resolverGroups ctx.groups = true)) ∧
    (IsResolutionManager ctx tt (some t) r = none ∨
     IsResolutionManager ctx tt (some t) r = some .forbidden) := by
  have htow := isTemplateOwner_none_iff ctx tt
  constructor
  · simp only [IsResolutionManager]
    split_ifs with h1 h2 h3 h4
    · exact iff_of_true rfl
        (Or.inl (htow.mp (Option.isNone_iff_eq_none.mp h1)))
    · exact iff_of_true rfl (Or.inr (Or.inl h2))
    · refine iff_of_true rfl (Or.inr (Or.inr (Or.inl ?_)))
      cases r with
      | none => simp at h3
      | some r0 => exact ⟨r0, rfl, by simpa using h3⟩
    · exact iff_of_true rfl (Or.inr (Or.inr (Or.inr h4)))
    · refine iff_of_false (by simp) ?_
      rintro (⟨tt0, rfl, hc⟩ | hc | ⟨r0, rfl, hc⟩ | hc)
      · exact h1 (Option.isNone_iff_eq_none.mpr (htow.mpr ⟨tt0, rfl, hc⟩))
      · exact h2 hc
      · exact h3 (by simpa using hc)
      · exact h4 hc
  · simp only [IsResolutionManager]
    split_ifs <;> simp

/-- The tag loop rejects, with a BadRequest on that tag, as soon as it meets
the first ill-formed tag parameter. -/
theorem parseStatsTags_error_of_findBad (l : List String) :
    ∀ acc bad, findBadTag l = some bad →
      parseStatsTags acc l = .error (.badRequest bad) := by
  induction l with
  | nil => intro acc bad h; simp [findBadTag] at h
  | cons t rest ih =>
    intro acc bad h
    unfold findBadTag at h
    by_cases hw : statsTagWellFormed t = true
    · rw [if_pos hw] at h
      unfold statsTagWellFormed at hw
      cases hg : goSplit t '=' with
      | nil => rw [hg] at hw; simp at hw
      | cons a as =>
        cases as with
        | nil => rw [hg] at hw; simp at hw
        | cons b bs =>
          cases bs with
          | nil =>
            rw [hg] at hw
            have hw' : (if a = "" ∨ b = "" then false else true) = true := by
              simpa using hw
            by_cases hab : a = "" ∨ b = ""
            · rw [if_pos hab] at hw'; simp at hw'
            · simp only [parseStatsTags, hg]
              rw [if_neg hab]
              exact ih _ bad h
          | cons c cs => rw [hg] at hw; simp at hw
    · rw [if_neg hw] at h
      cases h
      have hw2 : statsTagWellFormed t = false := by
        simpa using hw
      unfold statsTagWellFormed at hw2
      cases hg : goSplit t '=' with
      | nil => simp only [parseStatsTags, hg]
      | cons a as =>
        cases as with
        | nil => simp only [parseStatsTags, hg]
        | cons b bs =>
          cases bs with
          | nil =>
            rw [hg] at hw2
            have hw' : (if a = "" ∨ b = "" then false else true) = false := by
              simpa using hw2
            by_cases hab : a = "" ∨ b = ""
            · simp only [parseStatsTags, hg]
              rw [if_pos hab]
            · rw [if_neg hab] at hw'; simp at hw'
          | cons c cs => simp only [parseStatsTags, hg]

/-- When every tag parameter is well-formed, the tag loop succeeds and
returns the accumulated tag map. -/
theorem parseStatsTags_ok_of_noBad (l : List String) :
    ∀ acc, findBadTag l = none →
      parseStatsTags acc l = .ok (statsTagsMap acc l) := by
  induction l with
  | nil => intro acc _; rfl
  | cons t rest ih =>
    intro acc h
    unfold findBadTag at h
    by_cases hw : statsTagWellFormed t = true
    · rw [if_pos hw] at h
      unfold statsTagWellFormed at hw
      cases hg : goSplit t '=' with
      | nil => rw [hg] at hw; simp at hw
      | cons a as =>
        cases as with
        | nil => rw [hg] at hw; simp at hw
        | cons b bs =>
          cases bs with
          | nil =>
            rw [hg] at hw
            have hw' : (if a = "" ∨ b = "" then false else true) = true := by
              simpa using hw
            by_cases hab : a = "" ∨ b = ""
            · rw [if_pos hab] at hw'; simp at hw'
            · simp only [parseStatsTags, statsTagsMap, hg]
              rw [if_neg hab]
              exact ih _ h
          | cons c cs => rw [hg] at hw; simp at hw
    · rw [if_neg hw] at h
      cases h

/-- Claim C10: when some tag query parameter does not split on the equals
sign into exactly two non-empty parts, Stats returns BadRequest on the first
such tag and no statistics; otherwise it returns the task-state counts
computed for the parsed key/value tag map. -/
theorem stats_rejects_bad_tags_else_counts
    (loadStateCount : List (String × String) → Except String (List (String × Nat)))
    (inTags : List String) :
    (∀ bad, findBadTag inTags = some bad →
      Stats loadStateCount inTags = .error (.badRequest bad)) ∧
    (findBadTag inTags = none →
      Stats loadStateCount inTags =
        (match loadStateCount (statsTagsMap [] inTags) with
         | .error e => .error (.internal e)
         | .ok m => .ok m)) := by
  constructor
  · intro bad h
    unfold Stats
    rw [parseStatsTags_error_of_findBad inTags [] bad h]
  · intro h
    unfold Stats
    rw [parseStatsTags_ok_of_noBad inTags [] h]

theorem stats_rejects_bad_tags_else_counts_witness :
    Stats loadStateCountW statsTagsBadW = .error (.badRequest badTagW) :=
  (stats_rejects_bad_tags_else_counts loadStateCountW statsTagsBadW).1 badTagW
    (by decide)

/-- Claim C4 (as stated, refuted): the gauge's label dimensions are not
(state, template, group) — the first label dimension is named `status`. -/
theorem metrics_labels_not_state_template_group :
    metricsLabelNames ≠ ["state", "template", "group"] := by decide

/-- Claim C4 (amended): the engine registers a Prometheus gauge named
utask_task_state with label dimensions status, template and group, refreshed
every 5 seconds from the aggregation query counting tasks by state, template
and resolver group; each aggregate entry updates the gauge with label values
(state, template, group). -/
theorem metrics_gauge_labels_and_refresh :
    (metricsGaugeName = "utask_task_state" ∧
     metricsLabelNames = ["status", "template", "group"] ∧
     collectMetricsTickSeconds = 5) ∧
    ∀ stats g gs tpl ts st c,
      (g, gs) ∈ stats → (tpl, ts) ∈ gs → (st, c) ∈ ts →
      (([st, tpl, g], c) : List String × Nat) ∈ updateMetrics stats := by
  refine ⟨⟨rfl, rfl, rfl⟩, ?_⟩
  intro stats g gs tpl ts st c hg ht hs
  simp only [updateMetrics, List.mem_flatMap, List.mem_map]
  exact ⟨(g, gs), hg, (tpl, ts), ht, (st, c), hs, rfl⟩

theorem metrics_gauge_labels_and_refresh_witness :
    (([StateDone, tmplNameW, groupNameW], 3) : List String × Nat) ∈
      updateMetrics metricsStatsW :=
  metrics_gauge_labels_and_refresh.2 metricsStatsW groupNameW
    [(tmplNameW, [(StateDone, 3)])] tmplNameW [(StateDone, 3)] StateDone 3
    (by decide) (by decide) (by decide)
